import Mathlib

/-!
Shallow embedding of the client-side state engine of the chat application:
the side-panel ("block") version store, debounced persistence, upload
manager and input submission logic, translated from
`src/components/block.tsx` and the multimodal-input components.
-/

set_option maxHeartbeats 1000000

namespace Chatbot

/-- A document snapshot (`Document` row of the db schema): `content` is
nullable, `createdAt` is a timestamp (modelled as `Nat`). -/
structure Document where
  title : String
  content : Option String
  createdAt : Nat
deriving Repr, DecidableEq

/-- Panel status of `UIBlock`: `"streaming" | "idle"`. -/
inductive BlockStatus where
  | streaming
  | idle
deriving Repr, DecidableEq

/-- Screen rectangle of the originating UI element (opaque metadata). -/
structure BoundingBox where
  top : Int
  left : Int
  width : Int
  height : Int
deriving Repr, DecidableEq

/-- The `UIBlock` interface of `block.tsx`. -/
structure UIBlock where
  title : String
  documentId : String
  content : String
  isVisible : Bool
  status : BlockStatus
  boundingBox : BoundingBox
deriving Repr, DecidableEq

/-- Display mode of the panel: `"edit" | "diff"`. -/
inductive Mode where
  | edit
  | diff
deriving Repr, DecidableEq

/-- The local React state of `PureBlock` that the claims are about:
`mode`, `document`, `currentVersionIndex` (initialised to `-1`, hence
an `Int`), `isContentDirty`, and the `block` prop state. -/
structure PanelState where
  mode : Mode
  document : Option Document
  currentVersionIndex : Int
  isContentDirty : Bool
  block : UIBlock
deriving Repr, DecidableEq

/-- The `useSWR` key for the documents fetch in `PureBlock`:
`block && block.status !== "streaming" ? `/api/document?id=${...}` : null`.
A `none` key means no request is started. -/
def documentsFetchKey (block : UIBlock) : Option String :=
  if block.status ≠ BlockStatus.streaming then
    some ("/api/document?id=" ++ block.documentId)
  else none

/-- The `useEffect` on `documents` in `PureBlock` (block.tsx lines
106-119): when a fetched snapshot list is non-empty, set `document` to
`documents.at(-1)`, set `currentVersionIndex` to `length - 1`, and set
`block.content` to `mostRecentDocument.content ?? ""`. -/
def applyDocumentsEffect (s : PanelState) (documents : List Document) : PanelState :=
  if documents.length > 0 then
    match documents.getLast? with
    | some mostRecentDocument =>
        { s with
          document := some mostRecentDocument
          currentVersionIndex := (documents.length : Int) - 1
          block := { s.block with content := mostRecentDocument.content.getD "" } }
    | none => s
  else s

/-- `getDocumentContentById(index)` of `PureBlock`: `""` when `documents`
is absent, when `documents[index]` is absent (out of bounds, including
negative indices), and otherwise `documents[index].content ?? ""`. -/
def getDocumentContentById (documents : Option (List Document)) (index : Int) : String :=
  match documents with
  | none => ""
  | some docs =>
      if index < 0 then ""
      else
        match docs[index.toNat]? with
        | none => ""
        | some d => d.content.getD ""

/-- Argument of `handleVersionChange`. -/
inductive NavigateType where
  | next
  | prev
  | toggle
  | latest
deriving Repr, DecidableEq

/-- `handleVersionChange(type)` of `PureBlock` (block.tsx lines 197-218):
early return when `documents` is absent; `latest` sets the index to
`documents.length - 1` and the mode to edit; `toggle` flips the mode;
`prev` decrements the index when it is `> 0`; `next` increments it when
it is `< documents.length - 1`. -/
def handleVersionChange (documents : Option (List Document)) (s : PanelState)
    (type : NavigateType) : PanelState :=
  match documents with
  | none => s
  | some docs =>
      let s1 :=
        if type = NavigateType.latest then
          { s with currentVersionIndex := (docs.length : Int) - 1, mode := Mode.edit }
        else s
      let s2 :=
        if type = NavigateType.toggle then
          { s1 with mode := if s1.mode = Mode.edit then Mode.diff else Mode.edit }
        else s1
      if type = NavigateType.prev then
        if s2.currentVersionIndex > 0 then
          { s2 with currentVersionIndex := s2.currentVersionIndex - 1 }
        else s2
      else if type = NavigateType.next then
        if s2.currentVersionIndex < (docs.length : Int) - 1 then
          { s2 with currentVersionIndex := s2.currentVersionIndex + 1 }
        else s2
      else s2

/-- A sequence of `handleVersionChange` calls against a fixed fetched
snapshot list. -/
def navigateSeq (documents : Option (List Document)) (s : PanelState)
    (types : List NavigateType) : PanelState :=
  types.foldl (handleVersionChange documents) s

/-- The props handed to `DiffView` in diff mode (block.tsx lines 424-429):
`oldContent = getDocumentContentById(currentVersionIndex - 1)` and
`newContent = getDocumentContentById(currentVersionIndex)`. -/
def diffViewProps (documents : Option (List Document)) (currentVersionIndex : Int) :
    String × String :=
  (getDocumentContentById documents (currentVersionIndex - 1),
   getDocumentContentById documents currentVersionIndex)

/-- Observable outcome of one `handleContentChange(updatedContent)` run
(block.tsx lines 128-169): the new SWR cache value for the document key
(`none` when the updater returned `undefined`), the body of the `POST
/api/document?id=` request when one was issued (`(title, content)`,
`none` when no network write happened), and the value of the
`isContentDirty` flag afterwards. -/
structure ContentChangeOutcome where
  newCache : Option (List Document)
  write : Option (String × String)
  isContentDirty : Bool
deriving Repr, DecidableEq

/-- `handleContentChange(updatedContent)` of `PureBlock`, as the SWR
`mutate` updater over the cached document list plus its side effects:
  - no cached list: the updater returns `undefined` (dirty flag untouched);
  - no last document, or its `content` is nullish/falsy (`null` or `""`):
    clear the dirty flag, cache unchanged, no write;
  - last content differs from `updatedContent`: POST `(block.title,
    updatedContent)`, clear the dirty flag, append a copy of the last
    document with the new content and a fresh `createdAt`;
  - last content equals `updatedContent`: cache unchanged, no write,
    dirty flag untouched. -/
def handleContentChange (blockTitle : String) (cache : Option (List Document))
    (dirty : Bool) (updatedContent : String) (now : Nat) : ContentChangeOutcome :=
  match cache with
  | none => ⟨none, none, dirty⟩
  | some currentDocuments =>
      match currentDocuments.getLast? with
      | none => ⟨some currentDocuments, none, false⟩
      | some currentDocument =>
          match currentDocument.content with
          | none => ⟨some currentDocuments, none, false⟩
          | some c =>
              if c = "" then ⟨some currentDocuments, none, false⟩
              else if c ≠ updatedContent then
                ⟨some (currentDocuments ++
                    [{ currentDocument with
                        content := some updatedContent
                        createdAt := now }]),
                 some (blockTitle, updatedContent), false⟩
              else ⟨some currentDocuments, none, dirty⟩

/-- `saveContent(updatedContent, debounce)` of `PureBlock` (block.tsx
lines 176-189): when `document` is present and `updatedContent` differs
from `document.content`, it sets the dirty flag and hands the content to
the debounced (`debounce = true`) or the immediate path; otherwise it
does nothing. The result is `some (debounce, updatedContent)` when an
action was taken, `none` otherwise. -/
def saveContent (document : Option Document) (updatedContent : String)
    (debounce : Bool) : Option (Bool × String) :=
  match document with
  | none => none
  | some doc =>
      if doc.content ≠ some updatedContent then some (debounce, updatedContent)
      else none

/-- Trailing-edge debounce (`useDebounceCallback(handleContentChange,
2000)`): each call `(t, c)` schedules an execution of the wrapped
function with argument `c` at `t + delay`; a further call before that
deadline supersedes it. Given the time-ordered call list, this returns
the arguments that actually execute: a call fires exactly when no later
call arrives within `delay` of it. -/
def debouncedExecutions (delay : Nat) : List (Nat × String) → List String
  | [] => []
  | [(_, c)] => [c]
  | (t, c) :: (t2, c2) :: rest =>
      if t2 < t + delay then debouncedExecutions delay ((t2, c2) :: rest)
      else c :: debouncedExecutions delay ((t2, c2) :: rest)

/-- A time-ordered batch of `saveContent(·, debounce := true)` calls:
only the calls that pass the `saveContent` guard reach the debounced
wrapper, and of those, `debouncedExecutions` selects the ones whose
deferred persistence actually runs. -/
def debouncedSaveExecutions (document : Option Document)
    (calls : List (Nat × String)) : List String :=
  debouncedExecutions 2000
    (calls.filter (fun tc => (saveContent document tc.2 true).isSome))

/-- An `Attachment`: `{url, name, contentType}`. -/
structure Attachment where
  url : String
  name : String
  contentType : String
deriving Repr, DecidableEq

/-- Resolution of one `uploadFile(file)` call: the server responds ok
with `{url, pathname, contentType}`, responds with an error payload, or
the fetch itself throws. -/
inductive UploadOutcome where
  | success (url pathname contentType : String)
  | httpError (error : String)
  | networkError
deriving Repr, DecidableEq

/-- `uploadFile` of the multimodal-input components: on an ok response it
returns the attachment `{url, name := pathname, contentType}`; on an
error payload or a thrown fetch it shows a toast and returns `undefined`
(it never rejects, so `Promise.all` over uploads always resolves). -/
def uploadFile : UploadOutcome → Option Attachment
  | UploadOutcome.success u p c => some ⟨u, p, c⟩
  | UploadOutcome.httpError _ => none
  | UploadOutcome.networkError => none

/-- The attachment state of the input component: the committed attachment
list and the pending upload queue of file names. -/
structure UploadState where
  attachments : List Attachment
  uploadQueue : List String
deriving Repr, DecidableEq

/-- `handleFileChange` of the multimodal-input components, applied to a
batch of selected files (each a name paired with how its upload
resolves): the queue is first set to the file names, `Promise.all` over
`uploadFile` resolves to one entry per file, entries that are
`undefined` are filtered out, the successes are appended to the
committed attachments, and the `finally` block clears the queue. -/
def handleFileChange (s : UploadState) (files : List (String × UploadOutcome)) :
    UploadState :=
  let uploadedAttachments := files.map (fun f => uploadFile f.2)
  let successfullyUploadedAttachments := uploadedAttachments.filterMap id
  { attachments := s.attachments ++ successfullyUploadedAttachments
    uploadQueue := [] }

/-- The `disabled` prop of the send button (non-loading branch):
`input.length === 0 || uploadQueue.length > 0`. -/
def sendButtonDisabled (input : String) (uploadQueue : List String) : Bool :=
  input.length == 0 || uploadQueue.length > 0

/-- The two user gestures that can reach `submitForm`. -/
inductive SendEvent where
  | buttonClick
  | enterKey
deriving Repr, DecidableEq

/-- Whether a gesture triggers `submitForm` in the input components:
the send button is rendered only when `isLoading` is false and its
`onClick` fires only when it is not disabled; the Enter-key handler
(`Enter` without shift) calls `submitForm` whenever `isLoading` is
false, with no check of the input or the upload queue. -/
def submissionTriggered (isLoading : Bool) (input : String)
    (uploadQueue : List String) : SendEvent → Bool
  | SendEvent.buttonClick => !isLoading && !(sendButtonDisabled input uploadQueue)
  | SendEvent.enterKey => !isLoading

/-- `submitForm`: submits with `experimental_attachments: attachments`
(the committed list only; queue entries carry no url and are never
attached) and then clears the committed attachment list. Returns the
attachments sent with the message and the state afterwards. -/
def submitForm (s : UploadState) : List Attachment × UploadState :=
  (s.attachments, { s with attachments := [] })

/-! ## Theorems -/

/-- C4: the version fetch (`GET /api/document?id=`) is never issued while
the panel status is `"streaming"`: its SWR key is `null` in every state
with `block.status = "streaming"`, and a non-null key forces the status
to have settled to `"idle"`. -/
theorem versionFetch_not_during_streaming (block : UIBlock) :
    (block.status = BlockStatus.streaming → documentsFetchKey block = none) ∧
    (documentsFetchKey block ≠ none → block.status = BlockStatus.idle) := by
  constructor
  · intro h
    simp [documentsFetchKey, h]
  · intro h
    cases hb : block.status with
    | streaming => simp [documentsFetchKey, hb] at h
    | idle => rfl

theorem versionFetch_not_during_streaming_witness :
    documentsFetchKey ⟨"Notes", "doc1", "", true, BlockStatus.streaming, ⟨0, 0, 0, 0⟩⟩
      = none :=
  (versionFetch_not_during_streaming _).1 rfl

/-- C9: `getDocumentContentById` is total over all integer indices: it
returns `""` when the snapshot list is absent, when the index is negative
or at least the length, and when the snapshot at the index has null
content; otherwise it returns that snapshot's content. -/
theorem getDocumentContentById_total (documents : Option (List Document)) (index : Int) :
    (documents = none → getDocumentContentById documents index = "") ∧
    (∀ docs, documents = some docs → index < 0 →
      getDocumentContentById documents index = "") ∧
    (∀ docs, documents = some docs → (docs.length : Int) ≤ index →
      getDocumentContentById documents index = "") ∧
    (∀ docs d, documents = some docs → 0 ≤ index →
      docs[index.toNat]? = some d → d.content = none →
      getDocumentContentById documents index = "") ∧
    (∀ docs d s, documents = some docs → 0 ≤ index →
      docs[index.toNat]? = some d → d.content = some s →
      getDocumentContentById documents index = s) := by
  refine ⟨?_, ?_, ?_, ?_, ?_⟩
  · intro h; simp [getDocumentContentById, h]
  · intro docs hd hneg
    simp [getDocumentContentById, hd, hneg]
  · intro docs hd hlen
    have hnonneg : ¬ index < 0 := by omega
    have hout : docs[index.toNat]? = none := by
      rw [List.getElem?_eq_none]
      omega
    simp [getDocumentContentById, hd, hnonneg, hout]
  · intro docs d hd hpos hget hcontent
    have hnonneg : ¬ index < 0 := by omega
    simp [getDocumentContentById, hd, hnonneg, hget, hcontent]
  · intro docs d s hd hpos hget hcontent
    have hnonneg : ¬ index < 0 := by omega
    simp [getDocumentContentById, hd, hnonneg, hget, hcontent]

theorem getDocumentContentById_total_witness :
    getDocumentContentById (some [⟨"Notes", some "Hello world", 0⟩]) 0 = "Hello world" :=
  (getDocumentContentById_total (some [⟨"Notes", some "Hello world", 0⟩]) 0).2.2.2.2
    [⟨"Notes", some "Hello world", 0⟩] ⟨"Notes", some "Hello world", 0⟩ "Hello world"
    rfl (by decide) rfl rfl

/-- C8: in diff mode, for `currentVersionIndex > 0` the `DiffView` props
compare snapshot `[index-1]` (old) against snapshot `[index]` (new); at
`currentVersionIndex = 0` they compare the empty string as baseline
against snapshot `[0]`. -/
theorem diffView_compares_adjacent_snapshots (docs : List Document) (i : Int) :
    (∀ dOld dNew, 0 < i →
      docs[(i - 1).toNat]? = some dOld → docs[i.toNat]? = some dNew →
      diffViewProps (some docs) i = (dOld.content.getD "", dNew.content.getD "")) ∧
    (∀ dNew, docs[0]? = some dNew →
      diffViewProps (some docs) 0 = ("", dNew.content.getD "")) := by
  constructor
  · intro dOld dNew hpos hold hnew
    have h1 : ¬ (i - 1 < 0) := by omega
    have h2 : ¬ (i < 0) := by omega
    have heq : (i - 1).toNat = i.toNat - 1 := by omega
    rw [heq] at hold
    simp [diffViewProps, getDocumentContentById, h1, h2, hold, hnew]
  · intro dNew hnew
    have h0 : ((0 : Int) - 1) < 0 := by omega
    have h1 : ¬ ((0 : Int) < 0) := by omega
    simp [diffViewProps, getDocumentContentById, h0, h1, hnew]

theorem diffView_compares_adjacent_snapshots_witness :
    diffViewProps (some [⟨"Notes", some "v1", 0⟩, ⟨"Notes", some "v2", 1⟩]) 1
      = ("v1", "v2") :=
  (diffView_compares_adjacent_snapshots
      [⟨"Notes", some "v1", 0⟩, ⟨"Notes", some "v2", 1⟩] 1).1
    ⟨"Notes", some "v1", 0⟩ ⟨"Notes", some "v2", 1⟩ (by decide) rfl rfl

/-- C7: uploads in a batch fail independently: for every submitted batch,
after `handleFileChange` completes, the committed attachment list has
gained exactly the attachments of the uploads that succeeded (failed
uploads are dropped, never retried), the pending upload queue is empty,
and a failing upload leaves the contribution of its siblings unchanged. -/
theorem uploads_fail_independently (s : UploadState)
    (files : List (String × UploadOutcome)) :
    (handleFileChange s files).uploadQueue = [] ∧
    (handleFileChange s files).attachments =
      s.attachments ++ files.filterMap (fun f => uploadFile f.2) ∧
    (∀ name error rest,
      handleFileChange s ((name, UploadOutcome.httpError error) :: rest) =
        handleFileChange s rest) := by
  refine ⟨rfl, ?_, ?_⟩
  · simp [handleFileChange, List.filterMap_map]
  · intro name error rest
    simp [handleFileChange, uploadFile]

/-- C10 counterexample: a message submission can be triggered while
uploads are pending (and likewise with an empty input): with
`isLoading = false`, input `"hi"` and the non-empty upload queue
`["a.png"]`, the Enter-key gesture triggers `submitForm`; the same holds
for the empty input `""` (length 0). -/
theorem submission_triggered_with_pending_uploads :
    submissionTriggered false "hi" ["a.png"] SendEvent.enterKey = true ∧
    (["a.png"] : List String) ≠ [] ∧
    submissionTriggered false "" ["a.png"] SendEvent.enterKey = true ∧
    ("" : String).length = 0 := by
  refine ⟨rfl, by decide, rfl, rfl⟩

/-- C10 amended: whenever the pending upload queue is non-empty or the
input text has length 0, the send button is disabled, so a button click
never triggers a submission, and a submission passes exactly the
committed attachment list (never queue entries); the Enter-key path,
however, is guarded only by `isLoading` and can trigger a submission
regardless of the queue and the input. -/
theorem send_button_disabled_guard (input : String) (uploadQueue : List String)
    (isLoading : Bool) :
    (uploadQueue ≠ [] ∨ input.length = 0 →
      sendButtonDisabled input uploadQueue = true ∧
      submissionTriggered isLoading input uploadQueue SendEvent.buttonClick = false) ∧
    (submissionTriggered isLoading input uploadQueue SendEvent.enterKey = !isLoading) ∧
    (∀ st : UploadState, (submitForm st).1 = st.attachments) := by
  refine ⟨?_, rfl, fun st => rfl⟩
  intro h
  have hdis : sendButtonDisabled input uploadQueue = true := by
    rcases h with h | h
    · have : 0 < uploadQueue.length := List.length_pos.mpr h
      simp [sendButtonDisabled]
      omega
    · simp [sendButtonDisabled, h]
  refine ⟨hdis, ?_⟩
  simp [submissionTriggered, hdis]

theorem send_button_disabled_guard_witness :
    sendButtonDisabled "hi" ["a.png"] = true ∧
    submissionTriggered false "hi" ["a.png"] SendEvent.buttonClick = false :=
  (send_button_disabled_guard "hi" ["a.png"] false).1 (Or.inl (by decide))

/-- C1 counterexample: an in-flight user edit IS clobbered by an incoming
version-fetch result: in a state with `isContentDirty = true` and Panel
State content `"user edit"`, applying a fetched snapshot sequence whose
last snapshot has content `"old"` changes the Panel State content. -/
theorem dirty_edit_clobbered_by_fetch :
    (PanelState.mk Mode.edit none (-1) true
        ⟨"Notes", "doc1", "user edit", true, BlockStatus.idle, ⟨0, 0, 0, 0⟩⟩).isContentDirty
      = true ∧
    (applyDocumentsEffect
        (PanelState.mk Mode.edit none (-1) true
          ⟨"Notes", "doc1", "user edit", true, BlockStatus.idle, ⟨0, 0, 0, 0⟩⟩)
        [⟨"Notes", some "old", 0⟩]).block.content
      ≠ (PanelState.mk Mode.edit none (-1) true
          ⟨"Notes", "doc1", "user edit", true, BlockStatus.idle, ⟨0, 0, 0, 0⟩⟩).block.content := by
  refine ⟨rfl, ?_⟩
  decide

/-- C1 amended: applying a fetched non-empty snapshot sequence always
overwrites the Panel State content with the last snapshot's content
(`?? ""`), the dirty flag being neither consulted nor modified by the
effect — in particular this holds when `isContentDirty = true`. -/
theorem fetch_overwrites_content_regardless_of_dirty (s : PanelState)
    (docs : List Document) (d : Document) (h : docs.getLast? = some d) :
    (applyDocumentsEffect s docs).block.content = d.content.getD "" ∧
    (applyDocumentsEffect s docs).isContentDirty = s.isContentDirty := by
  have hne : docs ≠ [] := by
    intro heq
    rw [heq] at h
    simp at h
  have hlen : 0 < docs.length := List.length_pos.mpr hne
  simp [applyDocumentsEffect, hlen, h]

theorem fetch_overwrites_content_regardless_of_dirty_witness :
    (applyDocumentsEffect
        (PanelState.mk Mode.edit none (-1) true
          ⟨"Notes", "edit doc", "draft", true, BlockStatus.idle, ⟨0, 0, 0, 0⟩⟩)
        [⟨"Notes", some "fetched", 3⟩]).block.content = "fetched" :=
  (fetch_overwrites_content_regardless_of_dirty
    (PanelState.mk Mode.edit none (-1) true
      ⟨"Notes", "edit doc", "draft", true, BlockStatus.idle, ⟨0, 0, 0, 0⟩⟩)
    [⟨"Notes", some "fetched", 3⟩] ⟨"Notes", some "fetched", 3⟩ rfl).1

/-- C5 counterexample: the user's historical version index is NOT
preserved on receipt of a new snapshot sequence: in a state where the
user has navigated to `currentVersionIndex = 0`, applying a fetched
three-snapshot sequence moves the index to 2. -/
theorem historical_index_not_preserved :
    (applyDocumentsEffect
        (PanelState.mk Mode.edit (some ⟨"Notes", some "v2", 1⟩) 0 false
          ⟨"Notes", "doc1", "v2", true, BlockStatus.idle, ⟨0, 0, 0, 0⟩⟩)
        [⟨"Notes", some "v1", 0⟩, ⟨"Notes", some "v2", 1⟩, ⟨"Notes", some "v3", 2⟩]).currentVersionIndex
      = 2 ∧
    (PanelState.mk Mode.edit (some ⟨"Notes", some "v2", 1⟩) 0 false
        ⟨"Notes", "doc1", "v2", true, BlockStatus.idle, ⟨0, 0, 0, 0⟩⟩).currentVersionIndex
      = 0 := by
  exact ⟨by decide, rfl⟩

/-- C5 amended: when the panel receives a new non-empty snapshot
sequence, it always advances `currentVersionIndex` to `length - 1`, sets
`document` to the last snapshot and mirrors that snapshot's content into
Panel State content — unconditionally, with no exception for a user who
had navigated to a historical version. -/
theorem fetch_always_advances_to_latest (s : PanelState)
    (docs : List Document) (d : Document) (h : docs.getLast? = some d) :
    (applyDocumentsEffect s docs).currentVersionIndex = (docs.length : Int) - 1 ∧
    (applyDocumentsEffect s docs).document = some d ∧
    (applyDocumentsEffect s docs).block.content = d.content.getD "" := by
  have hne : docs ≠ [] := by
    intro heq
    rw [heq] at h
    simp at h
  have hlen : 0 < docs.length := List.length_pos.mpr hne
  simp [applyDocumentsEffect, hlen, h]

theorem fetch_always_advances_to_latest_witness :
    (applyDocumentsEffect
        (PanelState.mk Mode.diff (some ⟨"Notes", some "a", 0⟩) 0 false
          ⟨"Notes", "doc2", "a", true, BlockStatus.idle, ⟨0, 0, 0, 0⟩⟩)
        [⟨"Notes", some "a", 0⟩, ⟨"Notes", some "b", 1⟩]).currentVersionIndex = 1 :=
  (fetch_always_advances_to_latest
    (PanelState.mk Mode.diff (some ⟨"Notes", some "a", 0⟩) 0 false
      ⟨"Notes", "doc2", "a", true, BlockStatus.idle, ⟨0, 0, 0, 0⟩⟩)
    [⟨"Notes", some "a", 0⟩, ⟨"Notes", some "b", 1⟩] ⟨"Notes", some "b", 1⟩ rfl).1

/-- C6 counterexample: new content `"x"` differs from the latest
snapshot's content `""`, yet no POST write is issued and no snapshot is
appended — the persistence attempt just clears the dirty flag and leaves
the cached sequence unchanged, refuting the claim that a differing
content always issues a write and appends a snapshot. -/
theorem no_write_despite_differing_content :
    (some "" : Option String) ≠ some "x" ∧
    handleContentChange "Notes" (some [⟨"Notes", some "", 0⟩]) true "x" 5 =
      ⟨some [⟨"Notes", some "", 0⟩], none, false⟩ := by
  exact ⟨by decide, rfl⟩

/-- C6 amended: for a persistence attempt whose cached sequence has a
last snapshot `d`: if `d.content` is null or empty, the attempt clears
the dirty flag with no write and no append (even when the new content
differs); if `d.content` is non-empty and differs from the new content, a
POST of `(block.title, content)` is issued, a snapshot with the updated
content (and fresh `createdAt`) is appended, and the dirty flag is
cleared; if `d.content` is non-empty and equal to the new content, no
write is issued and the sequence and the dirty flag are left unchanged
(the dirty flag is NOT cleared in this case). -/
theorem handleContentChange_cases (blockTitle : String) (docs : List Document)
    (d : Document) (dirty : Bool) (c : String) (now : Nat)
    (hlast : docs.getLast? = some d) :
    (d.content = none ∨ d.content = some "" →
      handleContentChange blockTitle (some docs) dirty c now =
        ⟨some docs, none, false⟩) ∧
    (∀ lc, d.content = some lc → lc ≠ "" → lc ≠ c →
      handleContentChange blockTitle (some docs) dirty c now =
        ⟨some (docs ++ [{ d with content := some c, createdAt := now }]),
         some (blockTitle, c), false⟩) ∧
    (∀ lc, d.content = some lc → lc ≠ "" → lc = c →
      handleContentChange blockTitle (some docs) dirty c now =
        ⟨some docs, none, dirty⟩) := by
  refine ⟨?_, ?_, ?_⟩
  · intro h
    rcases h with h | h <;> simp [handleContentChange, hlast, h]
  · intro lc hlc hne hneq
    simp [handleContentChange, hlast, hlc, hne, hneq]
  · intro lc hlc hne heq
    subst heq
    simp [handleContentChange, hlast, hlc, hne]

theorem handleContentChange_cases_witness :
    handleContentChange "Notes" (some [⟨"Notes", some "A", 0⟩]) true "B" 7 =
      ⟨some [⟨"Notes", some "A", 0⟩, ⟨"Notes", some "B", 7⟩],
       some ("Notes", "B"), false⟩ :=
  (handleContentChange_cases "Notes" [⟨"Notes", some "A", 0⟩]
      ⟨"Notes", some "A", 0⟩ true "B" 7 rfl).2.1 "A" rfl (by decide) (by decide)

/-- One `handleVersionChange` call keeps `currentVersionIndex` inside
`[0, length-1]` when it starts there. -/
theorem handleVersionChange_index_bounds (docs : List Document) (s : PanelState)
    (t : NavigateType) (hlen : 1 ≤ docs.length)
    (h0 : 0 ≤ s.currentVersionIndex)
    (h1 : s.currentVersionIndex ≤ (docs.length : Int) - 1) :
    0 ≤ (handleVersionChange (some docs) s t).currentVersionIndex ∧
    (handleVersionChange (some docs) s t).currentVersionIndex ≤ (docs.length : Int) - 1 := by
  cases t <;> simp [handleVersionChange] <;>
    (try split_ifs) <;> (try simp) <;> omega

/-- Every sequence of `handleVersionChange` calls keeps
`currentVersionIndex` inside `[0, length-1]` when it starts there. -/
theorem navigateSeq_index_bounds (docs : List Document) (hlen : 1 ≤ docs.length) :
    ∀ (types : List NavigateType) (s : PanelState),
      0 ≤ s.currentVersionIndex →
      s.currentVersionIndex ≤ (docs.length : Int) - 1 →
      0 ≤ (navigateSeq (some docs) s types).currentVersionIndex ∧
      (navigateSeq (some docs) s types).currentVersionIndex ≤ (docs.length : Int) - 1 := by
  intro types
  induction types with
  | nil => intro s h0 h1; exact ⟨h0, h1⟩
  | cons t rest ih =>
      intro s h0 h1
      have hstep := handleVersionChange_index_bounds docs s t hlen h0 h1
      exact ih (handleVersionChange (some docs) s t) hstep.1 hstep.2

/-- C2: for every sequence of navigate calls (`next`, `prev`, `toggle`,
`latest`) against a snapshot list of length ≥ 1, starting from an index
inside `[0, length-1]`, the index never leaves `[0, length-1]`; `prev` at
index 0 and `next` at index `length-1` leave the index unchanged;
`latest` sets the index to `length-1` and the mode to edit; `toggle`
flips the mode between edit and diff without changing the index. -/
theorem navigate_calls_invariant (docs : List Document) (s : PanelState)
    (hlen : 1 ≤ docs.length) (h0 : 0 ≤ s.currentVersionIndex)
    (h1 : s.currentVersionIndex ≤ (docs.length : Int) - 1) :
    (∀ types : List NavigateType,
      0 ≤ (navigateSeq (some docs) s types).currentVersionIndex ∧
      (navigateSeq (some docs) s types).currentVersionIndex ≤ (docs.length : Int) - 1) ∧
    (s.currentVersionIndex = 0 →
      (handleVersionChange (some docs) s NavigateType.prev).currentVersionIndex
        = s.currentVersionIndex) ∧
    (s.currentVersionIndex = (docs.length : Int) - 1 →
      (handleVersionChange (some docs) s NavigateType.next).currentVersionIndex
        = s.currentVersionIndex) ∧
    ((handleVersionChange (some docs) s NavigateType.latest).currentVersionIndex
        = (docs.length : Int) - 1 ∧
     (handleVersionChange (some docs) s NavigateType.latest).mode = Mode.edit) ∧
    ((handleVersionChange (some docs) s NavigateType.toggle).mode
        = (if s.mode = Mode.edit then Mode.diff else Mode.edit) ∧
     (handleVersionChange (some docs) s NavigateType.toggle).currentVersionIndex
        = s.currentVersionIndex) := by
  refine ⟨fun types => navigateSeq_index_bounds docs hlen types s h0 h1, ?_, ?_, ?_, ?_⟩
  · intro hz
    simp [handleVersionChange, hz]
  · intro htop
    simp [handleVersionChange, htop]
  · simp [handleVersionChange]
  · simp [handleVersionChange]

theorem navigate_calls_invariant_witness :
    0 ≤ (navigateSeq (some [⟨"Notes", some "v1", 0⟩])
          (PanelState.mk Mode.edit (some ⟨"Notes", some "v1", 0⟩) 0 false
            ⟨"Notes", "doc3", "v1", true, BlockStatus.idle, ⟨0, 0, 0, 0⟩⟩)
          [NavigateType.prev, NavigateType.next, NavigateType.toggle,
           NavigateType.latest]).currentVersionIndex :=
  ((navigate_calls_invariant [⟨"Notes", some "v1", 0⟩]
      (PanelState.mk Mode.edit (some ⟨"Notes", some "v1", 0⟩) 0 false
        ⟨"Notes", "doc3", "v1", true, BlockStatus.idle, ⟨0, 0, 0, 0⟩⟩)
      (by decide) (by decide) (by decide)).1
    [NavigateType.prev, NavigateType.next, NavigateType.toggle,
     NavigateType.latest]).1

/-- When every call of a non-empty batch is followed by the next within
`delay`, only the last call's argument actually executes. -/
theorem debouncedExecutions_all_close (delay : Nat) :
    ∀ (calls : List (Nat × String)) (t : Nat) (c : String),
      calls.getLast? = some (t, c) →
      List.Chain' (fun a b : Nat × String => b.1 < a.1 + delay) calls →
      debouncedExecutions delay calls = [c] := by
  intro calls
  induction calls with
  | nil => intro t c h _; simp at h
  | cons hd tl ih =>
      intro t c hl hch
      obtain ⟨t1, c1⟩ := hd
      cases tl with
      | nil =>
          simp at hl
          simp [debouncedExecutions, hl.2]
      | cons hd2 tl2 =>
          obtain ⟨t2, c2⟩ := hd2
          rw [List.getLast?_cons_cons] at hl
          rw [List.chain'_cons] at hch
          have hrec := ih t c hl hch.2
          rw [debouncedExecutions, if_pos hch.1, hrec]

/-- C3 counterexample: one `saveContent(content, debounce := true)` call
(trivially within one quiet window) whose content equals the current
document's content produces zero persistence executions, not exactly
one: `saveContent` drops the call at its guard. -/
theorem debounced_save_without_write :
    debouncedSaveExecutions (some ⟨"Notes", some "A", 0⟩) [(0, "A")] = [] ∧
    ([(0, "A")] : List (Nat × String)) ≠ [] := by
  exact ⟨by decide, by decide⟩

/-- C3 amended: for every batch of `saveContent(·, debounce := true)`
calls within one trailing quiet window of 2000 ms, in which the document
is loaded and every call's content differs from `document.content`
(otherwise `saveContent` drops the call), exactly one deferred
persistence execution occurs and it uses the content of the last call;
with `debounce = false` and a differing content the persistence call
executes immediately. -/
theorem debounced_saves_coalesce_to_last (doc : Document)
    (calls : List (Nat × String)) (tN : Nat) (cN : String)
    (hlast : calls.getLast? = some (tN, cN))
    (hdiff : ∀ tc ∈ calls, doc.content ≠ some tc.2)
    (hgap : List.Chain' (fun a b : Nat × String => b.1 < a.1 + 2000) calls) :
    debouncedSaveExecutions (some doc) calls = [cN] ∧
    (∀ c, doc.content ≠ some c →
      saveContent (some doc) c false = some (false, c)) := by
  constructor
  · have hfilter :
        calls.filter (fun tc => (saveContent (some doc) tc.2 true).isSome) = calls := by
      rw [List.filter_eq_self]
      intro a ha
      have hne := hdiff a ha
      simp [saveContent, hne]
    unfold debouncedSaveExecutions
    rw [hfilter]
    exact debouncedExecutions_all_close 2000 calls tN cN hlast hgap
  · intro c hc
    simp [saveContent, hc]

theorem debounced_saves_coalesce_to_last_witness :
    debouncedSaveExecutions (some ⟨"Notes", some "A", 0⟩) [(0, "B"), (1000, "C")]
      = ["C"] :=
  (debounced_saves_coalesce_to_last ⟨"Notes", some "A", 0⟩ [(0, "B"), (1000, "C")]
      1000 "C" rfl (by decide) (by simp [List.chain'_cons])).1

end Chatbot
